import Mathlib

/-!
Shallow embedding of the ink! smart contract in `src/lib.rs`
(module `swap_contract` of repository AltiMario/SwapSmartContract).

Modelling choices:
* `AccountId` and `Balance` are modelled as `Nat` (the contract performs no
  arithmetic on balances, and `AccountId` is opaque; only equality is used).
* The id counter `next_swap_id` is a `u32`; `checked_add` is modelled with an
  explicit bound `u32MAX = 2^32 - 1`.
* `ink::storage::Mapping<u32, Swap>` is modelled as an association list with
  `mapGet` / `mapInsert` / `mapRemove` mirroring `get` / `insert` / `remove`.
* The host environment (`self.env()`) is modelled by an `Env` record carrying
  `caller()`, `transferred_value()`, and a `transfer` success oracle
  (`transfer_ok to amount`): `env.transfer(to, amount)` succeeds exactly when
  the oracle returns `true` for that recipient and amount.
* Each contract message returns an `Outcome`: the post-state, the list of
  successfully executed outbound transfers (recipient, amount) in order, the
  list of emitted events in order, and the `Result` value.
-/

deriving instance DecidableEq for Except

namespace swap_contract

/-- The largest value the `u32` counter `next_swap_id` can hold (`u32::MAX`). -/
def u32MAX : Nat := 2 ^ 32 - 1

/-- Model of `swap_id.checked_add(1)` on the `u32` counter. -/
def checkedAdd1 (n : Nat) : Option Nat :=
  if n + 1 ≤ u32MAX then some (n + 1) else none

/-- The `Swap` storage struct: one pending agreement. -/
structure Swap where
  initiator : Nat
  counterparty : Nat
  initiator_asset : Nat
  counterparty_asset : Nat
deriving DecidableEq, Repr

/-- The `SwapContract` storage struct: mapping, id counter, reentrancy flag. -/
structure SwapContract where
  swaps : List (Nat × Swap)
  next_swap_id : Nat
  reentrancy_guard : Bool
deriving DecidableEq, Repr

/-- The contract error enum. -/
inductive Error where
  | SwapNotFound
  | NotAuthorized
  | InsufficientInitiatorBalance
  | InsufficientCounterpartyBalance
  | SwapIdOverflow
  | Reentrancy
deriving DecidableEq, Repr

/-- The three ink! events the contract can emit. -/
inductive Event where
  | SwapInitiated (swap_id initiator counterparty initiator_asset counterparty_asset : Nat)
  | SwapAccepted (swap_id : Nat)
  | SwapCancelled (swap_id : Nat)
deriving DecidableEq, Repr

/-- Storage lookup, `Mapping::get`. -/
def mapGet (m : List (Nat × Swap)) (k : Nat) : Option Swap :=
  match m with
  | [] => none
  | (k', v) :: rest => if k = k' then some v else mapGet rest k

/-- Storage deletion, `Mapping::remove`. -/
def mapRemove (m : List (Nat × Swap)) (k : Nat) : List (Nat × Swap) :=
  match m with
  | [] => []
  | (k', v) :: rest => if k = k' then mapRemove rest k else (k', v) :: mapRemove rest k

/-- Storage insertion, `Mapping::insert` (overwrites any previous binding of the key). -/
def mapInsert (m : List (Nat × Swap)) (k : Nat) (v : Swap) : List (Nat × Swap) :=
  (k, v) :: mapRemove m k

/-- Host environment of a single invocation: `caller()`, `transferred_value()`,
and the success oracle for `transfer(to, amount)`. -/
structure Env where
  caller : Nat
  transferred_value : Nat
  transfer_ok : Nat → Nat → Bool

/-- Result of one contract message: post-state, executed outbound transfers
(recipient, amount), emitted events, and the returned `Result`. -/
structure Outcome (α : Type) where
  state : SwapContract
  transfers : List (Nat × Nat)
  events : List Event
  result : Except Error α

/-- Initial storage, `SwapContract::default()` / `new()`: empty mapping, counter 0, flag idle. -/
def initialState : SwapContract :=
  { swaps := [], next_swap_id := 0, reentrancy_guard := false }

/-- Model of `transfer_funds`: call the host transfer, mapping failure to
`InsufficientCounterpartyBalance`.  Returns the executed-transfer log.
(The source's parameter `to` is renamed `dest`: `to` is reserved in Lean.) -/
def transfer_funds (env : Env) (dest amount : Nat) : List (Nat × Nat) × Except Error Unit :=
  if env.transfer_ok dest amount then ([(dest, amount)], .ok ())
  else ([], .error .InsufficientCounterpartyBalance)

/-- Model of `enter_reentrancy_guard`: fail with `Reentrancy` if the flag is set,
otherwise set it. -/
def enter_reentrancy_guard (s : SwapContract) : Except Error SwapContract :=
  if s.reentrancy_guard then .error .Reentrancy
  else .ok { s with reentrancy_guard := true }

/-- Model of `exit_reentrancy_guard`: clear the flag. -/
def exit_reentrancy_guard (s : SwapContract) : SwapContract :=
  { s with reentrancy_guard := false }

/-- Model of the message `initiate_swap(counterparty, counterparty_asset)`. -/
def initiate_swap (env : Env) (s : SwapContract)
    (counterparty counterparty_asset : Nat) : Outcome Nat :=
  let initiator := env.caller
  let initiator_asset := env.transferred_value
  if initiator_asset = 0 then
    ⟨s, [], [], .error .InsufficientInitiatorBalance⟩
  else
    let swap_id := s.next_swap_id
    match checkedAdd1 swap_id with
    | none => ⟨s, [], [], .error .SwapIdOverflow⟩
    | some next =>
      let swap : Swap :=
        { initiator := initiator, counterparty := counterparty,
          initiator_asset := initiator_asset, counterparty_asset := counterparty_asset }
      let s' : SwapContract :=
        { s with swaps := mapInsert s.swaps swap_id swap, next_swap_id := next }
      ⟨s', [],
       [.SwapInitiated swap_id initiator counterparty initiator_asset counterparty_asset],
       .ok swap_id⟩

/-- The closure body of `accept_swap`, run with the reentrancy flag set. -/
def accept_swap_inner (env : Env) (s : SwapContract) (swap_id : Nat) : Outcome Unit :=
  match mapGet s.swaps swap_id with
  | none => ⟨s, [], [], .error .SwapNotFound⟩
  | some swap =>
    if env.caller ≠ swap.counterparty then
      ⟨s, [], [], .error .NotAuthorized⟩
    else
      let transferred := env.transferred_value
      if transferred ≠ swap.counterparty_asset then
        ⟨s, [], [], .error .InsufficientCounterpartyBalance⟩
      else
        match transfer_funds env swap.initiator transferred with
        | (t1, .error e) => ⟨s, t1, [], .error e⟩
        | (t1, .ok _) =>
          match transfer_funds env swap.counterparty swap.initiator_asset with
          | (t2, .error e) => ⟨s, t1 ++ t2, [], .error e⟩
          | (t2, .ok _) =>
            ⟨{ s with swaps := mapRemove s.swaps swap_id },
             t1 ++ t2, [.SwapAccepted swap_id], .ok ()⟩

/-- Model of the message `accept_swap(swap_id)`: guard, closure body, guard release. -/
def accept_swap (env : Env) (s : SwapContract) (swap_id : Nat) : Outcome Unit :=
  match enter_reentrancy_guard s with
  | .error e => ⟨s, [], [], .error e⟩
  | .ok s1 =>
    let o := accept_swap_inner env s1 swap_id
    ⟨exit_reentrancy_guard o.state, o.transfers, o.events, o.result⟩

/-- The closure body of `cancel_swap`, run with the reentrancy flag set. -/
def cancel_swap_inner (env : Env) (s : SwapContract) (swap_id : Nat) : Outcome Unit :=
  match mapGet s.swaps swap_id with
  | none => ⟨s, [], [], .error .SwapNotFound⟩
  | some swap =>
    if env.caller ≠ swap.initiator then
      ⟨s, [], [], .error .NotAuthorized⟩
    else
      match transfer_funds env swap.initiator swap.initiator_asset with
      | (t1, .error e) => ⟨s, t1, [], .error e⟩
      | (t1, .ok _) =>
        ⟨{ s with swaps := mapRemove s.swaps swap_id },
         t1, [.SwapCancelled swap_id], .ok ()⟩

/-- Model of the message `cancel_swap(swap_id)`: guard, closure body, guard release. -/
def cancel_swap (env : Env) (s : SwapContract) (swap_id : Nat) : Outcome Unit :=
  match enter_reentrancy_guard s with
  | .error e => ⟨s, [], [], .error e⟩
  | .ok s1 =>
    let o := cancel_swap_inner env s1 swap_id
    ⟨exit_reentrancy_guard o.state, o.transfers, o.events, o.result⟩

/-- One top-level invocation of a contract message, with its environment. -/
inductive Op where
  | initiate (env : Env) (counterparty counterparty_asset : Nat)
  | accept (env : Env) (swap_id : Nat)
  | cancel (env : Env) (swap_id : Nat)

/-- State transition of one top-level invocation. -/
def step (s : SwapContract) (op : Op) : SwapContract :=
  match op with
  | .initiate env c ca => (initiate_swap env s c ca).state
  | .accept env id => (accept_swap env s id).state
  | .cancel env id => (cancel_swap env s id).state

/-- Run a sequence of top-level invocations. -/
def run (s : SwapContract) (l : List Op) : SwapContract :=
  l.foldl step s

/-- Equals 1 when the invocation is a successful `initiate_swap` call from state `s`,
0 otherwise. -/
def proposalDelta (s : SwapContract) (op : Op) : Nat :=
  match op with
  | .initiate env cp ca =>
    match (initiate_swap env s cp ca).result with
    | .ok _ => 1
    | .error _ => 0
  | _ => 0

/-- Number of successful `initiate_swap` calls in a sequence run from `s`. -/
def countProposals (s : SwapContract) (l : List Op) : Nat :=
  match l with
  | [] => 0
  | op :: rest => proposalDelta s op + countProposals (step s op) rest


/-- Registry invariant between top-level calls: the reentrancy flag is idle and
every stored id is below the next-id counter. -/
def Inv (s : SwapContract) : Prop :=
  s.reentrancy_guard = false ∧ ∀ k v, mapGet s.swaps k = some v → k < s.next_swap_id

/-- A resolved (or never-issued) id below the counter. -/
def Dead (X : Nat) (s : SwapContract) : Prop :=
  X < s.next_swap_id ∧ mapGet s.swaps X = none

/-- All live agreements hold a strictly positive initiator deposit. -/
def PosDeposits (s : SwapContract) : Prop :=
  ∀ k v, mapGet s.swaps k = some v → 0 < v.initiator_asset

end swap_contract

namespace swap_contract

theorem mapGet_mapRemove (m : List (Nat × Swap)) (k j : Nat) :
    mapGet (mapRemove m k) j = if j = k then none else mapGet m j := by
  induction m with
  | nil => simp [mapRemove, mapGet]
  | cons p rest ih =>
    obtain ⟨k', v⟩ := p
    by_cases hkk : k = k'
    · subst hkk
      have hr : mapRemove ((k, v) :: rest) k = mapRemove rest k := by simp [mapRemove]
      rw [hr, ih]
      by_cases hjk : j = k
      · simp [hjk]
      · simp [hjk, mapGet]
    · simp only [mapRemove, if_neg hkk, mapGet]
      by_cases hjk : j = k'
      · subst hjk
        have hne : ¬ j = k := fun hh => hkk hh.symm
        simp [hne]
      · simp [hjk, ih]

theorem mapGet_mapInsert (m : List (Nat × Swap)) (k j : Nat) (v : Swap) :
    mapGet (mapInsert m k v) j = if j = k then some v else mapGet m j := by
  by_cases h : j = k <;> simp [mapInsert, mapGet, h, mapGet_mapRemove]

theorem accept_swap_inner_eq_notfound (env : Env) (s : SwapContract) (X : Nat)
    (h : mapGet s.swaps X = none) :
    accept_swap_inner env s X = ⟨s, [], [], .error .SwapNotFound⟩ := by
  simp [accept_swap_inner, h]

theorem accept_swap_inner_eq_notauth (env : Env) (s : SwapContract) (X : Nat) (swap : Swap)
    (h : mapGet s.swaps X = some swap) (hc : env.caller ≠ swap.counterparty) :
    accept_swap_inner env s X = ⟨s, [], [], .error .NotAuthorized⟩ := by
  simp [accept_swap_inner, h, hc]

theorem accept_swap_inner_eq_badvalue (env : Env) (s : SwapContract) (X : Nat) (swap : Swap)
    (h : mapGet s.swaps X = some swap) (hc : env.caller = swap.counterparty)
    (hv : env.transferred_value ≠ swap.counterparty_asset) :
    accept_swap_inner env s X = ⟨s, [], [], .error .InsufficientCounterpartyBalance⟩ := by
  simp [accept_swap_inner, h, hc, hv]

theorem accept_swap_inner_eq_t1fail (env : Env) (s : SwapContract) (X : Nat) (swap : Swap)
    (h : mapGet s.swaps X = some swap) (hc : env.caller = swap.counterparty)
    (hv : env.transferred_value = swap.counterparty_asset)
    (ht1 : env.transfer_ok swap.initiator swap.counterparty_asset = false) :
    accept_swap_inner env s X = ⟨s, [], [], .error .InsufficientCounterpartyBalance⟩ := by
  simp [accept_swap_inner, h, hc, hv, transfer_funds, ht1]

theorem accept_swap_inner_eq_t2fail (env : Env) (s : SwapContract) (X : Nat) (swap : Swap)
    (h : mapGet s.swaps X = some swap) (hc : env.caller = swap.counterparty)
    (hv : env.transferred_value = swap.counterparty_asset)
    (ht1 : env.transfer_ok swap.initiator swap.counterparty_asset = true)
    (ht2 : env.transfer_ok swap.counterparty swap.initiator_asset = false) :
    accept_swap_inner env s X
      = ⟨s, [(swap.initiator, swap.counterparty_asset)], [],
         .error .InsufficientCounterpartyBalance⟩ := by
  simp [accept_swap_inner, h, hc, hv, transfer_funds, ht1, ht2]

theorem accept_swap_inner_eq_ok (env : Env) (s : SwapContract) (X : Nat) (swap : Swap)
    (h : mapGet s.swaps X = some swap) (hc : env.caller = swap.counterparty)
    (hv : env.transferred_value = swap.counterparty_asset)
    (ht1 : env.transfer_ok swap.initiator swap.counterparty_asset = true)
    (ht2 : env.transfer_ok swap.counterparty swap.initiator_asset = true) :
    accept_swap_inner env s X
      = ⟨{ s with swaps := mapRemove s.swaps X },
         [(swap.initiator, swap.counterparty_asset), (swap.counterparty, swap.initiator_asset)],
         [.SwapAccepted X], .ok ()⟩ := by
  simp [accept_swap_inner, h, hc, hv, transfer_funds, ht1, ht2]

theorem cancel_swap_inner_eq_notfound (env : Env) (s : SwapContract) (X : Nat)
    (h : mapGet s.swaps X = none) :
    cancel_swap_inner env s X = ⟨s, [], [], .error .SwapNotFound⟩ := by
  simp [cancel_swap_inner, h]

theorem cancel_swap_inner_eq_notauth (env : Env) (s : SwapContract) (X : Nat) (swap : Swap)
    (h : mapGet s.swaps X = some swap) (hc : env.caller ≠ swap.initiator) :
    cancel_swap_inner env s X = ⟨s, [], [], .error .NotAuthorized⟩ := by
  simp [cancel_swap_inner, h, hc]

theorem cancel_swap_inner_eq_tfail (env : Env) (s : SwapContract) (X : Nat) (swap : Swap)
    (h : mapGet s.swaps X = some swap) (hc : env.caller = swap.initiator)
    (ht : env.transfer_ok swap.initiator swap.initiator_asset = false) :
    cancel_swap_inner env s X = ⟨s, [], [], .error .InsufficientCounterpartyBalance⟩ := by
  simp [cancel_swap_inner, h, hc, transfer_funds, ht]

theorem cancel_swap_inner_eq_ok (env : Env) (s : SwapContract) (X : Nat) (swap : Swap)
    (h : mapGet s.swaps X = some swap) (hc : env.caller = swap.initiator)
    (ht : env.transfer_ok swap.initiator swap.initiator_asset = true) :
    cancel_swap_inner env s X
      = ⟨{ s with swaps := mapRemove s.swaps X },
         [(swap.initiator, swap.initiator_asset)], [.SwapCancelled X], .ok ()⟩ := by
  simp [cancel_swap_inner, h, hc, transfer_funds, ht]

theorem guard_false_eta (s : SwapContract) (h : s.reentrancy_guard = false) :
    { s with reentrancy_guard := false } = s := by
  cases s
  simp_all

theorem accept_swap_guard_set (env : Env) (s : SwapContract) (X : Nat)
    (h : s.reentrancy_guard = true) :
    accept_swap env s X = ⟨s, [], [], .error .Reentrancy⟩ := by
  simp [accept_swap, enter_reentrancy_guard, h]

theorem cancel_swap_guard_set (env : Env) (s : SwapContract) (X : Nat)
    (h : s.reentrancy_guard = true) :
    cancel_swap env s X = ⟨s, [], [], .error .Reentrancy⟩ := by
  simp [cancel_swap, enter_reentrancy_guard, h]

theorem accept_swap_eq_notfound (env : Env) (s : SwapContract) (X : Nat)
    (hg : s.reentrancy_guard = false) (h : mapGet s.swaps X = none) :
    accept_swap env s X = ⟨s, [], [], .error .SwapNotFound⟩ := by
  have h1 : mapGet ({ s with reentrancy_guard := true } : SwapContract).swaps X = none := h
  simp [accept_swap, enter_reentrancy_guard, hg,
        accept_swap_inner_eq_notfound env { s with reentrancy_guard := true } X h1,
        exit_reentrancy_guard, guard_false_eta s hg]

theorem accept_swap_eq_notauth (env : Env) (s : SwapContract) (X : Nat) (swap : Swap)
    (hg : s.reentrancy_guard = false) (h : mapGet s.swaps X = some swap)
    (hc : env.caller ≠ swap.counterparty) :
    accept_swap env s X = ⟨s, [], [], .error .NotAuthorized⟩ := by
  have h1 : mapGet ({ s with reentrancy_guard := true } : SwapContract).swaps X = some swap := h
  simp [accept_swap, enter_reentrancy_guard, hg,
        accept_swap_inner_eq_notauth env { s with reentrancy_guard := true } X swap h1 hc,
        exit_reentrancy_guard, guard_false_eta s hg]

theorem accept_swap_eq_badvalue (env : Env) (s : SwapContract) (X : Nat) (swap : Swap)
    (hg : s.reentrancy_guard = false) (h : mapGet s.swaps X = some swap)
    (hc : env.caller = swap.counterparty)
    (hv : env.transferred_value ≠ swap.counterparty_asset) :
    accept_swap env s X = ⟨s, [], [], .error .InsufficientCounterpartyBalance⟩ := by
  have h1 : mapGet ({ s with reentrancy_guard := true } : SwapContract).swaps X = some swap := h
  simp [accept_swap, enter_reentrancy_guard, hg,
        accept_swap_inner_eq_badvalue env { s with reentrancy_guard := true } X swap h1 hc hv,
        exit_reentrancy_guard, guard_false_eta s hg]

theorem accept_swap_eq_t1fail (env : Env) (s : SwapContract) (X : Nat) (swap : Swap)
    (hg : s.reentrancy_guard = false) (h : mapGet s.swaps X = some swap)
    (hc : env.caller = swap.counterparty)
    (hv : env.transferred_value = swap.counterparty_asset)
    (ht1 : env.transfer_ok swap.initiator swap.counterparty_asset = false) :
    accept_swap env s X = ⟨s, [], [], .error .InsufficientCounterpartyBalance⟩ := by
  have h1 : mapGet ({ s with reentrancy_guard := true } : SwapContract).swaps X = some swap := h
  simp [accept_swap, enter_reentrancy_guard, hg,
        accept_swap_inner_eq_t1fail env { s with reentrancy_guard := true } X swap h1 hc hv ht1,
        exit_reentrancy_guard, guard_false_eta s hg]

theorem accept_swap_eq_t2fail (env : Env) (s : SwapContract) (X : Nat) (swap : Swap)
    (hg : s.reentrancy_guard = false) (h : mapGet s.swaps X = some swap)
    (hc : env.caller = swap.counterparty)
    (hv : env.transferred_value = swap.counterparty_asset)
    (ht1 : env.transfer_ok swap.initiator swap.counterparty_asset = true)
    (ht2 : env.transfer_ok swap.counterparty swap.initiator_asset = false) :
    accept_swap env s X
      = ⟨s, [(swap.initiator, swap.counterparty_asset)], [],
         .error .InsufficientCounterpartyBalance⟩ := by
  have h1 : mapGet ({ s with reentrancy_guard := true } : SwapContract).swaps X = some swap := h
  simp [accept_swap, enter_reentrancy_guard, hg,
        accept_swap_inner_eq_t2fail env { s with reentrancy_guard := true } X swap h1 hc hv ht1 ht2,
        exit_reentrancy_guard, guard_false_eta s hg]

theorem accept_swap_eq_ok (env : Env) (s : SwapContract) (X : Nat) (swap : Swap)
    (hg : s.reentrancy_guard = false) (h : mapGet s.swaps X = some swap)
    (hc : env.caller = swap.counterparty)
    (hv : env.transferred_value = swap.counterparty_asset)
    (ht1 : env.transfer_ok swap.initiator swap.counterparty_asset = true)
    (ht2 : env.transfer_ok swap.counterparty swap.initiator_asset = true) :
    accept_swap env s X
      = ⟨{ s with swaps := mapRemove s.swaps X },
         [(swap.initiator, swap.counterparty_asset), (swap.counterparty, swap.initiator_asset)],
         [.SwapAccepted X], .ok ()⟩ := by
  have h1 : mapGet ({ s with reentrancy_guard := true } : SwapContract).swaps X = some swap := h
  simp [accept_swap, enter_reentrancy_guard, hg,
        accept_swap_inner_eq_ok env { s with reentrancy_guard := true } X swap h1 hc hv ht1 ht2,
        exit_reentrancy_guard, guard_false_eta s hg]

theorem cancel_swap_eq_notfound (env : Env) (s : SwapContract) (X : Nat)
    (hg : s.reentrancy_guard = false) (h : mapGet s.swaps X = none) :
    cancel_swap env s X = ⟨s, [], [], .error .SwapNotFound⟩ := by
  have h1 : mapGet ({ s with reentrancy_guard := true } : SwapContract).swaps X = none := h
  simp [cancel_swap, enter_reentrancy_guard, hg,
        cancel_swap_inner_eq_notfound env { s with reentrancy_guard := true } X h1,
        exit_reentrancy_guard, guard_false_eta s hg]

theorem cancel_swap_eq_notauth (env : Env) (s : SwapContract) (X : Nat) (swap : Swap)
    (hg : s.reentrancy_guard = false) (h : mapGet s.swaps X = some swap)
    (hc : env.caller ≠ swap.initiator) :
    cancel_swap env s X = ⟨s, [], [], .error .NotAuthorized⟩ := by
  have h1 : mapGet ({ s with reentrancy_guard := true } : SwapContract).swaps X = some swap := h
  simp [cancel_swap, enter_reentrancy_guard, hg,
        cancel_swap_inner_eq_notauth env { s with reentrancy_guard := true } X swap h1 hc,
        exit_reentrancy_guard, guard_false_eta s hg]

theorem cancel_swap_eq_tfail (env : Env) (s : SwapContract) (X : Nat) (swap : Swap)
    (hg : s.reentrancy_guard = false) (h : mapGet s.swaps X = some swap)
    (hc : env.caller = swap.initiator)
    (ht : env.transfer_ok swap.initiator swap.initiator_asset = false) :
    cancel_swap env s X = ⟨s, [], [], .error .InsufficientCounterpartyBalance⟩ := by
  have h1 : mapGet ({ s with reentrancy_guard := true } : SwapContract).swaps X = some swap := h
  simp [cancel_swap, enter_reentrancy_guard, hg,
        cancel_swap_inner_eq_tfail env { s with reentrancy_guard := true } X swap h1 hc ht,
        exit_reentrancy_guard, guard_false_eta s hg]

theorem cancel_swap_eq_ok (env : Env) (s : SwapContract) (X : Nat) (swap : Swap)
    (hg : s.reentrancy_guard = false) (h : mapGet s.swaps X = some swap)
    (hc : env.caller = swap.initiator)
    (ht : env.transfer_ok swap.initiator swap.initiator_asset = true) :
    cancel_swap env s X
      = ⟨{ s with swaps := mapRemove s.swaps X },
         [(swap.initiator, swap.initiator_asset)], [.SwapCancelled X], .ok ()⟩ := by
  have h1 : mapGet ({ s with reentrancy_guard := true } : SwapContract).swaps X = some swap := h
  simp [cancel_swap, enter_reentrancy_guard, hg,
        cancel_swap_inner_eq_ok env { s with reentrancy_guard := true } X swap h1 hc ht,
        exit_reentrancy_guard, guard_false_eta s hg]

theorem initiate_swap_eq_zero (env : Env) (s : SwapContract) (c ca : Nat)
    (h : env.transferred_value = 0) :
    initiate_swap env s c ca = ⟨s, [], [], .error .InsufficientInitiatorBalance⟩ := by
  simp [initiate_swap, h]

theorem initiate_swap_eq_overflow (env : Env) (s : SwapContract) (c ca : Nat)
    (h0 : env.transferred_value ≠ 0) (h : u32MAX ≤ s.next_swap_id) :
    initiate_swap env s c ca = ⟨s, [], [], .error .SwapIdOverflow⟩ := by
  have hadd : checkedAdd1 s.next_swap_id = none := by
    simp only [checkedAdd1]
    have : ¬ s.next_swap_id + 1 ≤ u32MAX := by omega
    simp [this]
  simp [initiate_swap, h0, hadd]

theorem initiate_swap_eq_ok (env : Env) (s : SwapContract) (c ca : Nat)
    (h0 : env.transferred_value ≠ 0) (h : s.next_swap_id + 1 ≤ u32MAX) :
    initiate_swap env s c ca
      = ⟨{ s with
            swaps := mapInsert s.swaps s.next_swap_id
              ⟨env.caller, c, env.transferred_value, ca⟩,
            next_swap_id := s.next_swap_id + 1 },
         [],
         [.SwapInitiated s.next_swap_id env.caller c env.transferred_value ca],
         .ok s.next_swap_id⟩ := by
  have hadd : checkedAdd1 s.next_swap_id = some (s.next_swap_id + 1) := by
    simp [checkedAdd1, h]
  simp [initiate_swap, h0, hadd]

theorem accept_swap_total_cases (env : Env) (s : SwapContract) (X : Nat) :
    (∃ e ts, accept_swap env s X = ⟨s, ts, [], .error e⟩) ∨
    (s.reentrancy_guard = false ∧ ∃ swap ts,
       mapGet s.swaps X = some swap ∧
       accept_swap env s X
         = ⟨{ s with swaps := mapRemove s.swaps X }, ts, [.SwapAccepted X], .ok ()⟩) := by
  cases hg : s.reentrancy_guard with
  | true => exact Or.inl ⟨.Reentrancy, [], accept_swap_guard_set env s X hg⟩
  | false =>
    cases hm : mapGet s.swaps X with
    | none => exact Or.inl ⟨.SwapNotFound, [], accept_swap_eq_notfound env s X hg hm⟩
    | some swap =>
      by_cases hc : env.caller = swap.counterparty
      · by_cases hv : env.transferred_value = swap.counterparty_asset
        · cases ht1 : env.transfer_ok swap.initiator swap.counterparty_asset with
          | false =>
            exact Or.inl ⟨.InsufficientCounterpartyBalance, [],
              accept_swap_eq_t1fail env s X swap hg hm hc hv ht1⟩
          | true =>
            cases ht2 : env.transfer_ok swap.counterparty swap.initiator_asset with
            | false =>
              exact Or.inl ⟨.InsufficientCounterpartyBalance,
                [(swap.initiator, swap.counterparty_asset)],
                accept_swap_eq_t2fail env s X swap hg hm hc hv ht1 ht2⟩
            | true =>
              exact Or.inr ⟨rfl, swap,
                [(swap.initiator, swap.counterparty_asset),
                 (swap.counterparty, swap.initiator_asset)],
                rfl, by simp [accept_swap_eq_ok env s X swap hg hm hc hv ht1 ht2, hg]⟩
        · exact Or.inl ⟨.InsufficientCounterpartyBalance, [],
            accept_swap_eq_badvalue env s X swap hg hm hc hv⟩
      · exact Or.inl ⟨.NotAuthorized, [], accept_swap_eq_notauth env s X swap hg hm hc⟩

theorem cancel_swap_total_cases (env : Env) (s : SwapContract) (X : Nat) :
    (∃ e ts, cancel_swap env s X = ⟨s, ts, [], .error e⟩) ∨
    (s.reentrancy_guard = false ∧ ∃ swap ts,
       mapGet s.swaps X = some swap ∧
       cancel_swap env s X
         = ⟨{ s with swaps := mapRemove s.swaps X }, ts, [.SwapCancelled X], .ok ()⟩) := by
  cases hg : s.reentrancy_guard with
  | true => exact Or.inl ⟨.Reentrancy, [], cancel_swap_guard_set env s X hg⟩
  | false =>
    cases hm : mapGet s.swaps X with
    | none => exact Or.inl ⟨.SwapNotFound, [], cancel_swap_eq_notfound env s X hg hm⟩
    | some swap =>
      by_cases hc : env.caller = swap.initiator
      · cases ht : env.transfer_ok swap.initiator swap.initiator_asset with
        | false =>
          exact Or.inl ⟨.InsufficientCounterpartyBalance, [],
            cancel_swap_eq_tfail env s X swap hg hm hc ht⟩
        | true =>
          exact Or.inr ⟨rfl, swap, [(swap.initiator, swap.initiator_asset)],
            rfl, by simp [cancel_swap_eq_ok env s X swap hg hm hc ht, hg]⟩
      · exact Or.inl ⟨.NotAuthorized, [], cancel_swap_eq_notauth env s X swap hg hm hc⟩

theorem initiate_swap_total_cases (env : Env) (s : SwapContract) (c ca : Nat) :
    (∃ e, initiate_swap env s c ca = ⟨s, [], [], .error e⟩) ∨
    (env.transferred_value ≠ 0 ∧ s.next_swap_id + 1 ≤ u32MAX ∧
       initiate_swap env s c ca
         = ⟨{ s with
               swaps := mapInsert s.swaps s.next_swap_id
                 ⟨env.caller, c, env.transferred_value, ca⟩,
               next_swap_id := s.next_swap_id + 1 },
            [],
            [.SwapInitiated s.next_swap_id env.caller c env.transferred_value ca],
            .ok s.next_swap_id⟩) := by
  by_cases h0 : env.transferred_value = 0
  · exact Or.inl ⟨.InsufficientInitiatorBalance, initiate_swap_eq_zero env s c ca h0⟩
  · by_cases hb : s.next_swap_id + 1 ≤ u32MAX
    · exact Or.inr ⟨h0, hb, initiate_swap_eq_ok env s c ca h0 hb⟩
    · exact Or.inl ⟨.SwapIdOverflow, initiate_swap_eq_overflow env s c ca h0 (by omega)⟩

theorem Inv_initialState : Inv initialState := by
  constructor
  · rfl
  · intro k v h
    simp [initialState, mapGet] at h

theorem step_preserves_Inv (s : SwapContract) (op : Op) (h : Inv s) : Inv (step s op) := by
  obtain ⟨hg, hk⟩ := h
  cases op with
  | initiate env c ca =>
    rcases initiate_swap_total_cases env s c ca with ⟨e, he⟩ | ⟨h0, hb, he⟩
    · simpa [step, he] using And.intro hg hk
    · refine ⟨by simp [step, he, hg], ?_⟩
      intro k v hkv
      simp only [step, he] at hkv
      rw [mapGet_mapInsert] at hkv
      simp only [step, he]
      by_cases heq : k = s.next_swap_id
      · omega
      · rw [if_neg heq] at hkv
        have := hk k v hkv
        omega
  | accept env X =>
    rcases accept_swap_total_cases env s X with ⟨e, ts, he⟩ | ⟨_, swap, ts, _, he⟩
    · simpa [step, he] using And.intro hg hk
    · refine ⟨by simp [step, he, hg], ?_⟩
      intro k v hkv
      simp only [step, he] at hkv
      rw [mapGet_mapRemove] at hkv
      simp only [step, he]
      by_cases heq : k = X
      · simp [heq] at hkv
      · rw [if_neg heq] at hkv
        exact hk k v hkv
  | cancel env X =>
    rcases cancel_swap_total_cases env s X with ⟨e, ts, he⟩ | ⟨_, swap, ts, _, he⟩
    · simpa [step, he] using And.intro hg hk
    · refine ⟨by simp [step, he, hg], ?_⟩
      intro k v hkv
      simp only [step, he] at hkv
      rw [mapGet_mapRemove] at hkv
      simp only [step, he]
      by_cases heq : k = X
      · simp [heq] at hkv
      · rw [if_neg heq] at hkv
        exact hk k v hkv

theorem run_preserves_Inv (s : SwapContract) (l : List Op) (h : Inv s) : Inv (run s l) := by
  induction l generalizing s with
  | nil => exact h
  | cons op rest ih => exact ih (step s op) (step_preserves_Inv s op h)

theorem Inv_run_initial (l : List Op) : Inv (run initialState l) :=
  run_preserves_Inv initialState l Inv_initialState

theorem step_counter_le (s : SwapContract) (op : Op) :
    s.next_swap_id ≤ (step s op).next_swap_id := by
  cases op with
  | initiate env c ca =>
    rcases initiate_swap_total_cases env s c ca with ⟨e, he⟩ | ⟨h0, hb, he⟩ <;>
      simp [step, he]
  | accept env X =>
    rcases accept_swap_total_cases env s X with ⟨e, ts, he⟩ | ⟨_, swap, ts, _, he⟩ <;>
      simp [step, he]
  | cancel env X =>
    rcases cancel_swap_total_cases env s X with ⟨e, ts, he⟩ | ⟨_, swap, ts, _, he⟩ <;>
      simp [step, he]

theorem run_counter_le (s : SwapContract) (l : List Op) :
    s.next_swap_id ≤ (run s l).next_swap_id := by
  induction l generalizing s with
  | nil => exact Nat.le_refl _
  | cons op rest ih =>
    exact Nat.le_trans (step_counter_le s op) (ih (step s op))

theorem step_preserves_Dead (X : Nat) (s : SwapContract) (op : Op) (h : Dead X s) :
    Dead X (step s op) := by
  obtain ⟨hlt, hnone⟩ := h
  cases op with
  | initiate env c ca =>
    rcases initiate_swap_total_cases env s c ca with ⟨e, he⟩ | ⟨h0, hb, he⟩
    · simpa [step, he] using And.intro hlt hnone
    · constructor
      · simp only [step, he]
        omega
      · simp only [step, he]
        rw [mapGet_mapInsert]
        have : ¬ X = s.next_swap_id := by omega
        rw [if_neg this]
        exact hnone
  | accept env Y =>
    rcases accept_swap_total_cases env s Y with ⟨e, ts, he⟩ | ⟨_, swap, ts, _, he⟩
    · simpa [step, he] using And.intro hlt hnone
    · constructor
      · simpa [step, he] using hlt
      · simp only [step, he]
        rw [mapGet_mapRemove]
        by_cases hxy : X = Y
        · simp [hxy]
        · rw [if_neg hxy]
          exact hnone
  | cancel env Y =>
    rcases cancel_swap_total_cases env s Y with ⟨e, ts, he⟩ | ⟨_, swap, ts, _, he⟩
    · simpa [step, he] using And.intro hlt hnone
    · constructor
      · simpa [step, he] using hlt
      · simp only [step, he]
        rw [mapGet_mapRemove]
        by_cases hxy : X = Y
        · simp [hxy]
        · rw [if_neg hxy]
          exact hnone

theorem run_preserves_Dead (X : Nat) (s : SwapContract) (l : List Op) (h : Dead X s) :
    Dead X (run s l) := by
  induction l generalizing s with
  | nil => exact h
  | cons op rest ih => exact ih (step s op) (step_preserves_Dead X s op h)

theorem initiate_swap_error_state (env : Env) (s : SwapContract) (c ca : Nat) (e : Error)
    (h : (initiate_swap env s c ca).result = .error e) :
    (initiate_swap env s c ca).state = s := by
  rcases initiate_swap_total_cases env s c ca with ⟨e', he⟩ | ⟨h0, hb, he⟩
  · simp [he]
  · simp [he] at h

theorem accept_swap_error_state (env : Env) (s : SwapContract) (X : Nat) (e : Error)
    (h : (accept_swap env s X).result = .error e) :
    (accept_swap env s X).state = s := by
  rcases accept_swap_total_cases env s X with ⟨e', ts, he⟩ | ⟨hg, swap, ts, hm, he⟩
  · simp [he]
  · simp [he] at h

theorem cancel_swap_error_state (env : Env) (s : SwapContract) (X : Nat) (e : Error)
    (h : (cancel_swap env s X).result = .error e) :
    (cancel_swap env s X).state = s := by
  rcases cancel_swap_total_cases env s X with ⟨e', ts, he⟩ | ⟨hg, swap, ts, hm, he⟩
  · simp [he]
  · simp [he] at h

theorem accept_swap_ok_inv (env : Env) (s : SwapContract) (X : Nat)
    (h : (accept_swap env s X).result = .ok ()) :
    s.reentrancy_guard = false ∧
    (∃ swap, mapGet s.swaps X = some swap) ∧
    (accept_swap env s X).state = { s with swaps := mapRemove s.swaps X } := by
  rcases accept_swap_total_cases env s X with ⟨e', ts, he⟩ | ⟨hg, swap, ts, hm, he⟩
  · simp [he] at h
  · exact ⟨hg, ⟨swap, hm⟩, by simp [he]⟩

theorem cancel_swap_ok_inv (env : Env) (s : SwapContract) (X : Nat)
    (h : (cancel_swap env s X).result = .ok ()) :
    s.reentrancy_guard = false ∧
    (∃ swap, mapGet s.swaps X = some swap) ∧
    (cancel_swap env s X).state = { s with swaps := mapRemove s.swaps X } := by
  rcases cancel_swap_total_cases env s X with ⟨e', ts, he⟩ | ⟨hg, swap, ts, hm, he⟩
  · simp [he] at h
  · exact ⟨hg, ⟨swap, hm⟩, by simp [he]⟩

theorem initiate_swap_ok_inv (env : Env) (s : SwapContract) (c ca X : Nat)
    (h : (initiate_swap env s c ca).result = .ok X) :
    env.transferred_value ≠ 0 ∧ s.next_swap_id + 1 ≤ u32MAX ∧
    X = s.next_swap_id ∧
    (initiate_swap env s c ca).state.next_swap_id = X + 1 := by
  rcases initiate_swap_total_cases env s c ca with ⟨e', he⟩ | ⟨h0, hb, he⟩
  · simp [he] at h
  · have hx : X = s.next_swap_id := by
      have := h
      rw [he] at this
      simpa using this.symm
    exact ⟨h0, hb, hx, by simp [he, hx]⟩

theorem accept_swap_counter (env : Env) (s : SwapContract) (X : Nat) :
    (accept_swap env s X).state.next_swap_id = s.next_swap_id := by
  rcases accept_swap_total_cases env s X with ⟨e', ts, he⟩ | ⟨hg, swap, ts, hm, he⟩ <;>
    simp [he]

theorem cancel_swap_counter (env : Env) (s : SwapContract) (X : Nat) :
    (cancel_swap env s X).state.next_swap_id = s.next_swap_id := by
  rcases cancel_swap_total_cases env s X with ⟨e', ts, he⟩ | ⟨hg, swap, ts, hm, he⟩ <;>
    simp [he]

theorem run_counter_eq (s : SwapContract) (l : List Op) :
    (run s l).next_swap_id = s.next_swap_id + countProposals s l := by
  induction l generalizing s with
  | nil => simp [run, countProposals]
  | cons op rest ih =>
    have hrun : run s (op :: rest) = run (step s op) rest := rfl
    rw [hrun, ih]
    have hcount : countProposals s (op :: rest)
        = proposalDelta s op + countProposals (step s op) rest := rfl
    rw [hcount]
    cases op with
    | initiate env cp ca =>
      rcases initiate_swap_total_cases env s cp ca with ⟨e', he⟩ | ⟨h0, hb, he⟩
      · simp [step, he, proposalDelta]
      · simp [step, he, proposalDelta]
        omega
    | accept env X => simp [step, accept_swap_counter, proposalDelta]
    | cancel env X => simp [step, cancel_swap_counter, proposalDelta]

theorem PosDeposits_initialState : PosDeposits initialState := by
  intro k v h
  simp [initialState, mapGet] at h

theorem step_preserves_PosDeposits (s : SwapContract) (op : Op) (h : PosDeposits s) :
    PosDeposits (step s op) := by
  cases op with
  | initiate env c ca =>
    rcases initiate_swap_total_cases env s c ca with ⟨e', he⟩ | ⟨h0, hb, he⟩
    · simpa [step, he] using h
    · intro k v hkv
      simp only [step, he] at hkv
      rw [mapGet_mapInsert] at hkv
      by_cases heq : k = s.next_swap_id
      · rw [if_pos heq] at hkv
        cases hkv
        simpa [Nat.pos_iff_ne_zero] using h0
      · rw [if_neg heq] at hkv
        exact h k v hkv
  | accept env X =>
    rcases accept_swap_total_cases env s X with ⟨e', ts, he⟩ | ⟨hg, swap, ts, hm, he⟩
    · simpa [step, he] using h
    · intro k v hkv
      simp only [step, he] at hkv
      rw [mapGet_mapRemove] at hkv
      by_cases heq : k = X
      · simp [heq] at hkv
      · rw [if_neg heq] at hkv
        exact h k v hkv
  | cancel env X =>
    rcases cancel_swap_total_cases env s X with ⟨e', ts, he⟩ | ⟨hg, swap, ts, hm, he⟩
    · simpa [step, he] using h
    · intro k v hkv
      simp only [step, he] at hkv
      rw [mapGet_mapRemove] at hkv
      by_cases heq : k = X
      · simp [heq] at hkv
      · rw [if_neg heq] at hkv
        exact h k v hkv

theorem run_preserves_PosDeposits (s : SwapContract) (l : List Op) (h : PosDeposits s) :
    PosDeposits (run s l) := by
  induction l generalizing s with
  | nil => exact h
  | cons op rest ih => exact ih (step s op) (step_preserves_PosDeposits s op h)

theorem accept_swap_guard_after (env : Env) (s : SwapContract) (X : Nat)
    (h : s.reentrancy_guard = false) :
    (accept_swap env s X).state.reentrancy_guard = false := by
  rcases accept_swap_total_cases env s X with ⟨e', ts, he⟩ | ⟨hg, swap, ts, hm, he⟩ <;>
    simp [he, h]

theorem cancel_swap_guard_after (env : Env) (s : SwapContract) (X : Nat)
    (h : s.reentrancy_guard = false) :
    (cancel_swap env s X).state.reentrancy_guard = false := by
  rcases cancel_swap_total_cases env s X with ⟨e', ts, he⟩ | ⟨hg, swap, ts, hm, he⟩ <;>
    simp [he, h]

/-- C1: any call to `initiate_swap`, `accept_swap` or `cancel_swap` that returns
an error leaves the whole registry state (mapping, next-id counter and
reentrancy flag) exactly as it was before the call. -/
theorem C1_error_leaves_state_unchanged (env : Env) (s : SwapContract) (c ca X : Nat) (e : Error) :
    ((initiate_swap env s c ca).result = .error e → (initiate_swap env s c ca).state = s) ∧
    ((accept_swap env s X).result = .error e → (accept_swap env s X).state = s) ∧
    ((cancel_swap env s X).result = .error e → (cancel_swap env s X).state = s) :=
  ⟨initiate_swap_error_state env s c ca e, accept_swap_error_state env s X e,
   cancel_swap_error_state env s X e⟩

theorem C1_error_leaves_state_unchanged_witness :
    (initiate_swap ⟨1, 0, fun _ _ => true⟩ initialState 2 200).result
        = .error .InsufficientInitiatorBalance ∧
    (initiate_swap ⟨1, 0, fun _ _ => true⟩ initialState 2 200).state = initialState ∧
    (accept_swap ⟨1, 0, fun _ _ => true⟩ initialState 0).result = .error .SwapNotFound ∧
    (accept_swap ⟨1, 0, fun _ _ => true⟩ initialState 0).state = initialState :=
  ⟨rfl,
   (C1_error_leaves_state_unchanged ⟨1, 0, fun _ _ => true⟩ initialState 2 200 0
      .InsufficientInitiatorBalance).1 rfl,
   rfl,
   (C1_error_leaves_state_unchanged ⟨1, 0, fun _ _ => true⟩ initialState 2 200 0
      .SwapNotFound).2.1 rfl⟩

/-- C2: while the busy flag is set, a nested `accept_swap` or `cancel_swap`
fails with `Reentrancy` and leaves the registry untouched; when idle, the flag
is set by `enter_reentrancy_guard` at the start and is clear again after every
completed call; `initiate_swap` ignores the flag entirely. -/
theorem C2_reentrancy_guard_protocol (env : Env) (s : SwapContract) (X c ca : Nat) (b : Bool) :
    (s.reentrancy_guard = true →
       accept_swap env s X = ⟨s, [], [], .error .Reentrancy⟩ ∧
       cancel_swap env s X = ⟨s, [], [], .error .Reentrancy⟩) ∧
    (s.reentrancy_guard = false →
       enter_reentrancy_guard s = .ok { s with reentrancy_guard := true } ∧
       (accept_swap env s X).state.reentrancy_guard = false ∧
       (cancel_swap env s X).state.reentrancy_guard = false) ∧
    initiate_swap env { s with reentrancy_guard := b } c ca
      = ⟨{ (initiate_swap env s c ca).state with reentrancy_guard := b },
         (initiate_swap env s c ca).transfers,
         (initiate_swap env s c ca).events,
         (initiate_swap env s c ca).result⟩ := by
  refine ⟨?_, ?_, ?_⟩
  · intro h
    exact ⟨accept_swap_guard_set env s X h, cancel_swap_guard_set env s X h⟩
  · intro h
    exact ⟨by simp [enter_reentrancy_guard, h],
      accept_swap_guard_after env s X h, cancel_swap_guard_after env s X h⟩
  · have hproj : ({ s with reentrancy_guard := b } : SwapContract).next_swap_id
        = s.next_swap_id := rfl
    by_cases h0 : env.transferred_value = 0
    · rw [initiate_swap_eq_zero env s c ca h0,
          initiate_swap_eq_zero env { s with reentrancy_guard := b } c ca h0]
    · by_cases hb : s.next_swap_id + 1 ≤ u32MAX
      · rw [initiate_swap_eq_ok env s c ca h0 hb,
            initiate_swap_eq_ok env { s with reentrancy_guard := b } c ca h0
              (by rw [hproj]; exact hb)]
      · rw [initiate_swap_eq_overflow env s c ca h0 (by omega),
            initiate_swap_eq_overflow env { s with reentrancy_guard := b } c ca h0
              (by rw [hproj]; omega)]

theorem C2_reentrancy_guard_protocol_witness :
    ({ initialState with reentrancy_guard := true } : SwapContract).reentrancy_guard = true ∧
    accept_swap ⟨2, 200, fun _ _ => true⟩ { initialState with reentrancy_guard := true } 0
      = ⟨{ initialState with reentrancy_guard := true }, [], [], .error .Reentrancy⟩ ∧
    initialState.reentrancy_guard = false ∧
    (accept_swap ⟨2, 200, fun _ _ => true⟩ initialState 0).state.reentrancy_guard = false :=
  ⟨rfl,
   ((C2_reentrancy_guard_protocol ⟨2, 200, fun _ _ => true⟩
      { initialState with reentrancy_guard := true } 0 2 200 true).1 rfl).1,
   rfl,
   ((C2_reentrancy_guard_protocol ⟨2, 200, fun _ _ => true⟩ initialState 0 2 200 true).2.1
      rfl).2.1⟩

theorem accept_swap_ok_dead (env : Env) (s : SwapContract) (X : Nat) (hInv : Inv s)
    (h : (accept_swap env s X).result = .ok ()) :
    Dead X (accept_swap env s X).state := by
  obtain ⟨hg, ⟨swap, hm⟩, hstate⟩ := accept_swap_ok_inv env s X h
  constructor
  · rw [hstate]
    exact hInv.2 X swap hm
  · rw [hstate]
    show mapGet (mapRemove s.swaps X) X = none
    rw [mapGet_mapRemove]
    simp

theorem cancel_swap_ok_dead (env : Env) (s : SwapContract) (X : Nat) (hInv : Inv s)
    (h : (cancel_swap env s X).result = .ok ()) :
    Dead X (cancel_swap env s X).state := by
  obtain ⟨hg, ⟨swap, hm⟩, hstate⟩ := cancel_swap_ok_inv env s X h
  constructor
  · rw [hstate]
    exact hInv.2 X swap hm
  · rw [hstate]
    show mapGet (mapRemove s.swaps X) X = none
    rw [mapGet_mapRemove]
    simp

/-- C3: once `accept_swap` or `cancel_swap` has succeeded for an id (in any
reachable state), every later `accept_swap` or `cancel_swap` on that id, after
any further sequence of top-level calls, fails with `SwapNotFound`. -/
theorem C3_resolved_id_stays_not_found (l : List Op) (env : Env) (X : Nat) :
    ((accept_swap env (run initialState l) X).result = .ok () →
       ∀ (l' : List Op) (env' : Env),
         (accept_swap env' (run (accept_swap env (run initialState l) X).state l') X).result
             = .error .SwapNotFound ∧
         (cancel_swap env' (run (accept_swap env (run initialState l) X).state l') X).result
             = .error .SwapNotFound) ∧
    ((cancel_swap env (run initialState l) X).result = .ok () →
       ∀ (l' : List Op) (env' : Env),
         (accept_swap env' (run (cancel_swap env (run initialState l) X).state l') X).result
             = .error .SwapNotFound ∧
         (cancel_swap env' (run (cancel_swap env (run initialState l) X).state l') X).result
             = .error .SwapNotFound) := by
  have hInv : Inv (run initialState l) := Inv_run_initial l
  constructor
  · intro hr l' env'
    have hpostInv : Inv (accept_swap env (run initialState l) X).state := by
      have := step_preserves_Inv (run initialState l) (.accept env X) hInv
      simpa [step] using this
    have hdead := run_preserves_Dead X _ l'
      (accept_swap_ok_dead env (run initialState l) X hInv hr)
    have hInv' := run_preserves_Inv _ l' hpostInv
    exact ⟨by rw [accept_swap_eq_notfound env' _ X hInv'.1 hdead.2],
           by rw [cancel_swap_eq_notfound env' _ X hInv'.1 hdead.2]⟩
  · intro hr l' env'
    have hpostInv : Inv (cancel_swap env (run initialState l) X).state := by
      have := step_preserves_Inv (run initialState l) (.cancel env X) hInv
      simpa [step] using this
    have hdead := run_preserves_Dead X _ l'
      (cancel_swap_ok_dead env (run initialState l) X hInv hr)
    have hInv' := run_preserves_Inv _ l' hpostInv
    exact ⟨by rw [accept_swap_eq_notfound env' _ X hInv'.1 hdead.2],
           by rw [cancel_swap_eq_notfound env' _ X hInv'.1 hdead.2]⟩

theorem C3_resolved_id_stays_not_found_witness :
    (accept_swap ⟨2, 200, fun _ _ => true⟩
        (run initialState [.initiate ⟨1, 100, fun _ _ => true⟩ 2 200]) 0).result = .ok () ∧
    (accept_swap ⟨2, 200, fun _ _ => true⟩
        (run (accept_swap ⟨2, 200, fun _ _ => true⟩
          (run initialState [.initiate ⟨1, 100, fun _ _ => true⟩ 2 200]) 0).state []) 0).result
      = .error .SwapNotFound ∧
    (cancel_swap ⟨2, 200, fun _ _ => true⟩
        (run (accept_swap ⟨2, 200, fun _ _ => true⟩
          (run initialState [.initiate ⟨1, 100, fun _ _ => true⟩ 2 200]) 0).state []) 0).result
      = .error .SwapNotFound :=
  ⟨rfl,
   ((C3_resolved_id_stays_not_found [.initiate ⟨1, 100, fun _ _ => true⟩ 2 200]
       ⟨2, 200, fun _ _ => true⟩ 0).1 rfl [] ⟨2, 200, fun _ _ => true⟩).1,
   ((C3_resolved_id_stays_not_found [.initiate ⟨1, 100, fun _ _ => true⟩ 2 200]
       ⟨2, 200, fun _ _ => true⟩ 0).1 rfl [] ⟨2, 200, fun _ _ => true⟩).2⟩

/-- C4: when every `accept_swap` check passes, the attached value
(`counterparty_asset`) is transferred to the initiator, `initiator_asset` to
the counterparty, the agreement is removed and `SwapAccepted` is emitted; if
either transfer fails the call returns `InsufficientCounterpartyBalance`, emits
nothing, and the agreement stays in the registry. -/
theorem C4_accept_swap_effects (env : Env) (s : SwapContract) (X : Nat) (swap : Swap)
    (hg : s.reentrancy_guard = false) (hm : mapGet s.swaps X = some swap)
    (hc : env.caller = swap.counterparty)
    (hv : env.transferred_value = swap.counterparty_asset) :
    (env.transfer_ok swap.initiator swap.counterparty_asset = true →
       env.transfer_ok swap.counterparty swap.initiator_asset = true →
       accept_swap env s X
         = ⟨{ s with swaps := mapRemove s.swaps X },
            [(swap.initiator, swap.counterparty_asset),
             (swap.counterparty, swap.initiator_asset)],
            [.SwapAccepted X], .ok ()⟩) ∧
    ((env.transfer_ok swap.initiator swap.counterparty_asset = false ∨
      env.transfer_ok swap.counterparty swap.initiator_asset = false) →
       (accept_swap env s X).result = .error .InsufficientCounterpartyBalance ∧
       mapGet (accept_swap env s X).state.swaps X = some swap ∧
       (accept_swap env s X).events = []) := by
  constructor
  · intro ht1 ht2
    exact accept_swap_eq_ok env s X swap hg hm hc hv ht1 ht2
  · intro hfail
    cases ht1 : env.transfer_ok swap.initiator swap.counterparty_asset with
    | false =>
      rw [accept_swap_eq_t1fail env s X swap hg hm hc hv ht1]
      exact ⟨rfl, hm, rfl⟩
    | true =>
      cases ht2 : env.transfer_ok swap.counterparty swap.initiator_asset with
      | false =>
        rw [accept_swap_eq_t2fail env s X swap hg hm hc hv ht1 ht2]
        exact ⟨rfl, hm, rfl⟩
      | true =>
        rcases hfail with hf | hf
        · rw [ht1] at hf
          cases hf
        · rw [ht2] at hf
          cases hf

theorem C4_accept_swap_effects_witness :
    initialState.reentrancy_guard = false ∧
    mapGet (initiate_swap ⟨1, 100, fun _ _ => true⟩ initialState 2 200).state.swaps 0
      = some ⟨1, 2, 100, 200⟩ ∧
    accept_swap ⟨2, 200, fun _ _ => true⟩
        (initiate_swap ⟨1, 100, fun _ _ => true⟩ initialState 2 200).state 0
      = ⟨{ (initiate_swap ⟨1, 100, fun _ _ => true⟩ initialState 2 200).state with
            swaps := mapRemove
              (initiate_swap ⟨1, 100, fun _ _ => true⟩ initialState 2 200).state.swaps 0 },
         [(1, 200), (2, 100)], [.SwapAccepted 0], .ok ()⟩ :=
  ⟨rfl, rfl,
   (C4_accept_swap_effects ⟨2, 200, fun _ _ => true⟩
      (initiate_swap ⟨1, 100, fun _ _ => true⟩ initialState 2 200).state 0
      ⟨1, 2, 100, 200⟩ rfl rfl rfl rfl).1 rfl rfl⟩

/-- C5: `accept_swap` checks its preconditions in order — reentrancy flag,
existence of the agreement, counterparty authorization, exact attached value —
and the first violated check fixes the returned error. -/
theorem C5_accept_swap_check_order (env : Env) (s : SwapContract) (X : Nat) :
    (s.reentrancy_guard = true → (accept_swap env s X).result = .error .Reentrancy) ∧
    (s.reentrancy_guard = false → mapGet s.swaps X = none →
       (accept_swap env s X).result = .error .SwapNotFound) ∧
    (∀ swap : Swap, s.reentrancy_guard = false → mapGet s.swaps X = some swap →
       env.caller ≠ swap.counterparty →
       (accept_swap env s X).result = .error .NotAuthorized) ∧
    (∀ swap : Swap, s.reentrancy_guard = false → mapGet s.swaps X = some swap →
       env.caller = swap.counterparty →
       env.transferred_value ≠ swap.counterparty_asset →
       (accept_swap env s X).result = .error .InsufficientCounterpartyBalance) := by
  refine ⟨?_, ?_, ?_, ?_⟩
  · intro h
    rw [accept_swap_guard_set env s X h]
  · intro hg hm
    rw [accept_swap_eq_notfound env s X hg hm]
  · intro swap hg hm hc
    rw [accept_swap_eq_notauth env s X swap hg hm hc]
  · intro swap hg hm hc hv
    rw [accept_swap_eq_badvalue env s X swap hg hm hc hv]

theorem C5_accept_swap_check_order_witness :
    ({ initialState with reentrancy_guard := true } : SwapContract).reentrancy_guard = true ∧
    (accept_swap ⟨2, 200, fun _ _ => true⟩ { initialState with reentrancy_guard := true } 0).result
      = .error .Reentrancy ∧
    (accept_swap ⟨2, 150, fun _ _ => true⟩
        (initiate_swap ⟨1, 100, fun _ _ => true⟩ initialState 2 200).state 0).result
      = .error .InsufficientCounterpartyBalance :=
  ⟨rfl,
   (C5_accept_swap_check_order ⟨2, 200, fun _ _ => true⟩
      { initialState with reentrancy_guard := true } 0).1 rfl,
   (C5_accept_swap_check_order ⟨2, 150, fun _ _ => true⟩
      (initiate_swap ⟨1, 100, fun _ _ => true⟩ initialState 2 200).state 0).2.2.2
      ⟨1, 2, 100, 200⟩ rfl rfl rfl (by decide)⟩

/-- C6: in any reachable state, a proposal with positive attached value and a
non-exhausted counter succeeds, returns the fresh id equal to the number of
prior successful proposals, stores the submitted agreement under it and bumps
the counter by one; a proposal with attached value 0 fails with
`InsufficientInitiatorBalance` and changes nothing. -/
theorem C6_initiate_swap_functional (l : List Op) (env : Env) (c ca : Nat) :
    (0 < env.transferred_value →
       (run initialState l).next_swap_id + 1 ≤ u32MAX →
       countProposals initialState l = (run initialState l).next_swap_id ∧
       mapGet (run initialState l).swaps (countProposals initialState l) = none ∧
       (initiate_swap env (run initialState l) c ca).result
           = .ok (countProposals initialState l) ∧
       mapGet (initiate_swap env (run initialState l) c ca).state.swaps
           (countProposals initialState l)
           = some ⟨env.caller, c, env.transferred_value, ca⟩ ∧
       (initiate_swap env (run initialState l) c ca).state.next_swap_id
           = (run initialState l).next_swap_id + 1) ∧
    (env.transferred_value = 0 →
       (initiate_swap env (run initialState l) c ca).result
           = .error .InsufficientInitiatorBalance ∧
       (initiate_swap env (run initialState l) c ca).state = run initialState l) := by
  have hcnt : countProposals initialState l = (run initialState l).next_swap_id := by
    have h := run_counter_eq initialState l
    have h0 : initialState.next_swap_id = 0 := rfl
    omega
  constructor
  · intro hv hb
    have h0 : env.transferred_value ≠ 0 := by omega
    have hfresh : mapGet (run initialState l).swaps ((run initialState l).next_swap_id)
        = none := by
      cases hm : mapGet (run initialState l).swaps ((run initialState l).next_swap_id) with
      | none => rfl
      | some v =>
        exact absurd ((Inv_run_initial l).2 _ v hm) (lt_irrefl _)
    refine ⟨hcnt, by rw [hcnt]; exact hfresh, ?_, ?_, ?_⟩
    · rw [initiate_swap_eq_ok env _ c ca h0 hb, hcnt]
    · rw [initiate_swap_eq_ok env _ c ca h0 hb, hcnt]
      show mapGet (mapInsert (run initialState l).swaps ((run initialState l).next_swap_id) _)
          ((run initialState l).next_swap_id) = _
      rw [mapGet_mapInsert]
      simp
    · rw [initiate_swap_eq_ok env _ c ca h0 hb]
  · intro h0
    rw [initiate_swap_eq_zero env _ c ca h0]
    exact ⟨rfl, rfl⟩

theorem C6_initiate_swap_functional_witness :
    (0 : Nat) < 100 ∧
    (run initialState [.initiate ⟨1, 100, fun _ _ => true⟩ 2 200]).next_swap_id + 1 ≤ u32MAX ∧
    (initiate_swap ⟨3, 50, fun _ _ => true⟩
        (run initialState [.initiate ⟨1, 100, fun _ _ => true⟩ 2 200]) 4 60).result
      = .ok (countProposals initialState [.initiate ⟨1, 100, fun _ _ => true⟩ 2 200]) ∧
    mapGet (initiate_swap ⟨3, 50, fun _ _ => true⟩
        (run initialState [.initiate ⟨1, 100, fun _ _ => true⟩ 2 200]) 4 60).state.swaps
        (countProposals initialState [.initiate ⟨1, 100, fun _ _ => true⟩ 2 200])
      = some ⟨3, 4, 50, 60⟩ :=
  ⟨by decide, by decide,
   ((C6_initiate_swap_functional [.initiate ⟨1, 100, fun _ _ => true⟩ 2 200]
       ⟨3, 50, fun _ _ => true⟩ 4 60).1 (by decide) (by decide)).2.2.1,
   ((C6_initiate_swap_functional [.initiate ⟨1, 100, fun _ _ => true⟩ 2 200]
       ⟨3, 50, fun _ _ => true⟩ 4 60).1 (by decide) (by decide)).2.2.2.1⟩

/-- C7: `cancel_swap` by any caller other than the stored initiator (the
counterparty included) fails with `NotAuthorized` and leaves the registry,
hence the agreement, exactly as it was. -/
theorem C7_cancel_swap_requires_initiator (env : Env) (s : SwapContract) (X : Nat) (swap : Swap)
    (hg : s.reentrancy_guard = false) (hm : mapGet s.swaps X = some swap)
    (hc : env.caller ≠ swap.initiator) :
    (cancel_swap env s X).result = .error .NotAuthorized ∧
    (cancel_swap env s X).state = s ∧
    mapGet (cancel_swap env s X).state.swaps X = some swap := by
  rw [cancel_swap_eq_notauth env s X swap hg hm hc]
  exact ⟨rfl, rfl, hm⟩

theorem C7_cancel_swap_requires_initiator_witness :
    (initiate_swap ⟨1, 100, fun _ _ => true⟩ initialState 2 200).state.reentrancy_guard
      = false ∧
    mapGet (initiate_swap ⟨1, 100, fun _ _ => true⟩ initialState 2 200).state.swaps 0
      = some ⟨1, 2, 100, 200⟩ ∧
    (cancel_swap ⟨2, 0, fun _ _ => true⟩
        (initiate_swap ⟨1, 100, fun _ _ => true⟩ initialState 2 200).state 0).result
      = .error .NotAuthorized :=
  ⟨rfl, rfl,
   (C7_cancel_swap_requires_initiator ⟨2, 0, fun _ _ => true⟩
      (initiate_swap ⟨1, 100, fun _ _ => true⟩ initialState 2 200).state 0
      ⟨1, 2, 100, 200⟩ rfl rfl (by decide)).1⟩

/-- C8: ids come from a monotonically increasing counter starting at 0, a
successful proposal returns the current counter and bumps it, every later
successful proposal returns a strictly larger id (no reuse, even after
removal), and an exhausted counter makes proposals fail — with
`SwapIdOverflow` whenever the deposit check passes — instead of wrapping. -/
theorem C8_id_allocation :
    initialState.next_swap_id = 0 ∧
    (∀ (s : SwapContract) (op : Op), s.next_swap_id ≤ (step s op).next_swap_id) ∧
    (∀ (env : Env) (s : SwapContract) (c ca X : Nat),
       (initiate_swap env s c ca).result = .ok X →
       X = s.next_swap_id ∧
       (initiate_swap env s c ca).state.next_swap_id = X + 1 ∧
       ∀ (l : List Op) (env' : Env) (c' ca' Y : Nat),
         (initiate_swap env' (run (initiate_swap env s c ca).state l) c' ca').result = .ok Y →
         X < Y) ∧
    (∀ (env : Env) (s : SwapContract) (c ca : Nat), u32MAX ≤ s.next_swap_id →
       (initiate_swap env s c ca).state = s ∧
       (env.transferred_value ≠ 0 →
          (initiate_swap env s c ca).result = .error .SwapIdOverflow)) := by
  refine ⟨rfl, step_counter_le, ?_, ?_⟩
  · intro env s c ca X h
    obtain ⟨h0, hb, hX, hpost⟩ := initiate_swap_ok_inv env s c ca X h
    refine ⟨hX, hpost, ?_⟩
    intro l env' c' ca' Y hY
    obtain ⟨_, _, hY', _⟩ := initiate_swap_ok_inv env' _ c' ca' Y hY
    have hmono := run_counter_le (initiate_swap env s c ca).state l
    omega
  · intro env s c ca hfull
    constructor
    · by_cases h0 : env.transferred_value = 0
      · rw [initiate_swap_eq_zero env s c ca h0]
      · rw [initiate_swap_eq_overflow env s c ca h0 hfull]
    · intro h0
      rw [initiate_swap_eq_overflow env s c ca h0 hfull]

theorem C8_id_allocation_witness :
    (initiate_swap ⟨1, 100, fun _ _ => true⟩ initialState 2 200).result = .ok 0 ∧
    (0 : Nat) = initialState.next_swap_id ∧
    (initiate_swap ⟨1, 100, fun _ _ => true⟩ initialState 2 200).state.next_swap_id = 0 + 1 :=
  ⟨rfl,
   (C8_id_allocation.2.2.1 ⟨1, 100, fun _ _ => true⟩ initialState 2 200 0 rfl).1,
   (C8_id_allocation.2.2.1 ⟨1, 100, fun _ _ => true⟩ initialState 2 200 0 rfl).2.1⟩

/-- C9: in every state reachable from the empty registry, every stored
agreement has a strictly positive `initiator_asset`; the predicate holds
initially and is preserved by every operation. -/
theorem C9_live_deposits_positive :
    PosDeposits initialState ∧
    (∀ (s : SwapContract) (op : Op), PosDeposits s → PosDeposits (step s op)) ∧
    (∀ (l : List Op) (k : Nat) (v : Swap),
       mapGet (run initialState l).swaps k = some v → 0 < v.initiator_asset) :=
  ⟨PosDeposits_initialState, step_preserves_PosDeposits,
   fun l k v h =>
     run_preserves_PosDeposits initialState l PosDeposits_initialState k v h⟩

theorem C9_live_deposits_positive_witness :
    mapGet (run initialState [.initiate ⟨1, 100, fun _ _ => true⟩ 2 200]).swaps 0
      = some ⟨1, 2, 100, 200⟩ ∧
    0 < (⟨1, 2, 100, 200⟩ : Swap).initiator_asset :=
  ⟨rfl,
   C9_live_deposits_positive.2.2 [.initiate ⟨1, 100, fun _ _ => true⟩ 2 200] 0
     ⟨1, 2, 100, 200⟩ rfl⟩

/-- C10: if the refund transfer of `cancel_swap` fails, the call returns
`InsufficientCounterpartyBalance` (the counterparty-balance error), emits no
event and leaves the agreement stored; removal and the `SwapCancelled` event
happen only when the refund transfer succeeds. -/
theorem C10_cancel_refund_failure (env : Env) (s : SwapContract) (X : Nat) (swap : Swap)
    (hg : s.reentrancy_guard = false) (hm : mapGet s.swaps X = some swap)
    (hc : env.caller = swap.initiator) :
    (env.transfer_ok swap.initiator swap.initiator_asset = false →
       (cancel_swap env s X).result = .error .InsufficientCounterpartyBalance ∧
       (cancel_swap env s X).state = s ∧
       mapGet (cancel_swap env s X).state.swaps X = some swap ∧
       (cancel_swap env s X).events = []) ∧
    (env.transfer_ok swap.initiator swap.initiator_asset = true →
       cancel_swap env s X
         = ⟨{ s with swaps := mapRemove s.swaps X },
            [(swap.initiator, swap.initiator_asset)], [.SwapCancelled X], .ok ()⟩) := by
  constructor
  · intro ht
    rw [cancel_swap_eq_tfail env s X swap hg hm hc ht]
    exact ⟨rfl, rfl, hm, rfl⟩
  · intro ht
    exact cancel_swap_eq_ok env s X swap hg hm hc ht

theorem C10_cancel_refund_failure_witness :
    mapGet (initiate_swap ⟨1, 100, fun _ _ => true⟩ initialState 2 200).state.swaps 0
      = some ⟨1, 2, 100, 200⟩ ∧
    (cancel_swap ⟨1, 0, fun _ _ => false⟩
        (initiate_swap ⟨1, 100, fun _ _ => true⟩ initialState 2 200).state 0).result
      = .error .InsufficientCounterpartyBalance ∧
    mapGet (cancel_swap ⟨1, 0, fun _ _ => false⟩
        (initiate_swap ⟨1, 100, fun _ _ => true⟩ initialState 2 200).state 0).state.swaps 0
      = some ⟨1, 2, 100, 200⟩ :=
  ⟨rfl,
   ((C10_cancel_refund_failure ⟨1, 0, fun _ _ => false⟩
       (initiate_swap ⟨1, 100, fun _ _ => true⟩ initialState 2 200).state 0
       ⟨1, 2, 100, 200⟩ rfl rfl rfl).1 rfl).1,
   ((C10_cancel_refund_failure ⟨1, 0, fun _ _ => false⟩
       (initiate_swap ⟨1, 100, fun _ _ => true⟩ initialState 2 200).state 0
       ⟨1, 2, 100, 200⟩ rfl rfl rfl).1 rfl).2.2.1⟩

end swap_contract
